import Mathlib

/-
Verification of the financial projection engine of the business-case
generator (src/strategic_foundation/business_case_generator.py).

Monetary amounts, multipliers and the discount rate are embedded as exact
rationals; the simplified IRR, which takes a real fifth root, is embedded
over the reals.  Each definition below transcribes the corresponding
Python function; definitions whose doc comment starts with the words
Modelled from the spec transcribe an operation that the spec describes but
that is not present in the source.
-/

namespace BusinessCaseGenerator

inductive InvestmentType where
  | infrastructure
  | talent
  | technology
  | training
  | consulting
  | operations
deriving DecidableEq, Repr

inductive BenefitCategory where
  | revenue_growth
  | cost_reduction
  | productivity_improvement
  | risk_mitigation
  | customer_experience
  | compliance
deriving DecidableEq, Repr

/-- The Investment dataclass of the source. -/
structure Investment where
  category : InvestmentType
  description : String
  year_1_cost : ℚ
  year_2_cost : ℚ
  year_3_cost : ℚ
  ongoing_annual_cost : ℚ := 0
  confidence_level : ℚ := 0.85
deriving DecidableEq, Repr

/-- The Benefit dataclass of the source. -/
structure Benefit where
  category : BenefitCategory
  description : String
  year_1_value : ℚ
  year_2_value : ℚ
  year_3_value : ℚ
  ongoing_annual_value : ℚ := 0
  confidence_level : ℚ := 0.75
  realization_probability : ℚ := 0.80
deriving DecidableEq, Repr

/-- The FinancialProjection dataclass of the source.  Its irr field, a real
number produced by calculate_irr, is modelled by the separate function
projection_irr so that the remaining fields stay computable. -/
structure FinancialProjection where
  total_investment : ℚ
  total_benefits : ℚ
  net_present_value : ℚ
  roi_percentage : ℚ
  payback_period_months : ℕ
  yearly_cashflow : List ℚ
deriving DecidableEq, Repr

/-- self.discount_rate, set to 0.10 in the constructor of the generator. -/
def discount_rate : ℚ := 0.10

/-- One iteration of the investment loop of calculate_financial_projection:
annual_costs[0] += year_1_cost, annual_costs[1] += year_2_cost,
annual_costs[2] += year_3_cost, and annual_costs[year] += ongoing_annual_cost
for year in range(3, 5). -/
def applyInvestment (a : ℕ → ℚ) (inv : Investment) : ℕ → ℚ :=
  let a0 := Function.update a 0 (a 0 + inv.year_1_cost)
  let a1 := Function.update a0 1 (a0 1 + inv.year_2_cost)
  let a2 := Function.update a1 2 (a1 2 + inv.year_3_cost)
  let a3 := Function.update a2 3 (a2 3 + inv.ongoing_annual_cost)
  Function.update a3 4 (a3 4 + inv.ongoing_annual_cost)

/-- One iteration of the benefit loop of calculate_financial_projection:
years 1 to 3 accumulate value * confidence_level * realization_probability,
and years in range(3, 5) accumulate
ongoing_annual_value * confidence_level * realization_probability. -/
def applyBenefit (a : ℕ → ℚ) (ben : Benefit) : ℕ → ℚ :=
  let a0 := Function.update a 0
    (a 0 + ben.year_1_value * ben.confidence_level * ben.realization_probability)
  let a1 := Function.update a0 1
    (a0 1 + ben.year_2_value * ben.confidence_level * ben.realization_probability)
  let a2 := Function.update a1 2
    (a1 2 + ben.year_3_value * ben.confidence_level * ben.realization_probability)
  let a3 := Function.update a2 3
    (a2 3 + ben.ongoing_annual_value * ben.confidence_level * ben.realization_probability)
  Function.update a3 4
    (a3 4 + ben.ongoing_annual_value * ben.confidence_level * ben.realization_probability)

/-- The annual_costs array after the investment loop, starting from all
zeroes. -/
def annual_costs (invs : List Investment) : ℕ → ℚ :=
  invs.foldl applyInvestment (fun _ => 0)

/-- The annual_benefits array after the benefit loop, starting from all
zeroes. -/
def annual_benefits (bens : List Benefit) : ℕ → ℚ :=
  bens.foldl applyBenefit (fun _ => 0)

/-- cashflow = [annual_benefits[i] - annual_costs[i] for i in range(5)]. -/
def yearly_cashflow (invs : List Investment) (bens : List Benefit) : List ℚ :=
  (List.range 5).map (fun i => annual_benefits bens i - annual_costs invs i)

/-- npv = sum(cf / ((1 + self.discount_rate) ** (i + 1)) for i, cf in
enumerate(cashflow)). -/
def net_present_value (invs : List Investment) (bens : List Benefit) : ℚ :=
  ((yearly_cashflow invs bens).enum.map
    (fun p => p.2 / (1 + discount_rate) ^ (p.1 + 1))).sum

/-- total_investment = sum(annual_costs). -/
def total_investment (invs : List Investment) : ℚ :=
  ((List.range 5).map (annual_costs invs)).sum

/-- total_benefits = sum(annual_benefits). -/
def total_benefits (bens : List Benefit) : ℚ :=
  ((List.range 5).map (annual_benefits bens)).sum

/-- roi_percentage = ((total_benefits - total_investment) / total_investment)
* 100 if total_investment > 0 else 0. -/
def roi_percentage (invs : List Investment) (bens : List Benefit) : ℚ :=
  if 0 < total_investment invs then
    ((total_benefits bens - total_investment invs) / total_investment invs) * 100
  else 0

/-- The payback loop of calculate_financial_projection: scan the cash flows
accumulating a running total; the first year whose running total is
non-negative yields (year + 1) * 12 and breaks; if the loop finishes without
a break the for-else arm yields years * 12 with years = 5. -/
def paybackAux : List ℚ → ℚ → ℕ → ℕ
  | [], _, _ => 5 * 12
  | cf :: rest, cumulative, year =>
    if 0 ≤ cumulative + cf then (year + 1) * 12
    else paybackAux rest (cumulative + cf) (year + 1)

/-- payback_months as computed by calculate_financial_projection on a
cash-flow series. -/
def payback_months (cfs : List ℚ) : ℕ := paybackAux cfs 0 0

/-- The body of calculate_financial_projection, assembling the projection
record from the pieces above. -/
def calculate_financial_projection (invs : List Investment) (bens : List Benefit) :
    FinancialProjection :=
  { total_investment := total_investment invs
    total_benefits := total_benefits bens
    net_present_value := net_present_value invs bens
    roi_percentage := roi_percentage invs bens
    payback_period_months := payback_months (yearly_cashflow invs bens)
    yearly_cashflow := yearly_cashflow invs bens }

/-- calculate_irr of the source: 0 when the initial investment is not
positive, -1 when the total return is not positive, otherwise the clamped
compound-growth approximation
(total_return / initial_investment) ** (1 / years) - 1. -/
noncomputable def calculate_irr (cashflows : List ℝ) (initial_investment : ℝ) : ℝ :=
  if initial_investment ≤ 0 then 0
  else
    if cashflows.sum ≤ 0 then -1
    else
      min 1 (max (-1)
        ((cashflows.sum / initial_investment) ^ ((1 : ℝ) / (cashflows.length : ℝ)) - 1))

/-- The irr field of the projection: calculate_irr applied to the cash-flow
series and the total investment, exactly as in the source. -/
noncomputable def projection_irr (invs : List Investment) (bens : List Benefit) : ℝ :=
  calculate_irr ((yearly_cashflow invs bens).map (fun q : ℚ => (q : ℝ)))
    ((total_investment invs : ℚ) : ℝ)

/-- delay_benefit of the source: a delay of at most six months halves the
year-1 value and moves the removed half into year 2; a longer delay zeroes
year 1, moves 70 percent of the old year-1 value into year 2, moves the old
year-2 value plus 30 percent of the old year-1 value into year 3, and scales
both uncertainty factors by 0.9. -/
def delay_benefit (b : Benefit) (delay_months : ℤ) : Benefit :=
  if delay_months ≤ 6 then
    { category := b.category
      description := b.description
      year_1_value := b.year_1_value * 0.5
      year_2_value := b.year_2_value + b.year_1_value * 0.5
      year_3_value := b.year_3_value
      ongoing_annual_value := b.ongoing_annual_value
      confidence_level := b.confidence_level
      realization_probability := b.realization_probability }
  else
    { category := b.category
      description := b.description
      year_1_value := 0
      year_2_value := b.year_1_value * 0.7
      year_3_value := b.year_2_value + b.year_1_value * 0.3
      ongoing_annual_value := b.ongoing_annual_value
      confidence_level := b.confidence_level * 0.9
      realization_probability := b.realization_probability * 0.9 }

/-- Spec schedule of one cost item: slots 0, 1, 2 carry the explicit
per-year figures, every later slot carries the ongoing annual cost. -/
def costForSlot (inv : Investment) (i : ℕ) : ℚ :=
  if i = 0 then inv.year_1_cost
  else if i = 1 then inv.year_2_cost
  else if i = 2 then inv.year_3_cost
  else inv.ongoing_annual_cost

/-- Spec schedule of one benefit item, before the confidence and
realization multipliers. -/
def benefitValueForSlot (ben : Benefit) (i : ℕ) : ℚ :=
  if i = 0 then ben.year_1_value
  else if i = 1 then ben.year_2_value
  else if i = 2 then ben.year_3_value
  else ben.ongoing_annual_value

/-- The NPV formula of the engine with the discount rate left as a
parameter: the same enumerate-and-sum expression as net_present_value. -/
def npvAtRate (cfs : List ℚ) (r : ℚ) : ℚ :=
  (cfs.enum.map (fun p => p.2 / (1 + r) ^ (p.1 + 1))).sum

/-- Spec description of the payback rule: the first 0-based year index whose
cumulative cash flow is non-negative, turned into an end-of-year month
count, with 5 * 12 = 60 as the fallthrough value. -/
def specPayback (cfs : List ℚ) : ℕ :=
  match (List.range cfs.length).find? (fun k => decide (0 ≤ (cfs.take (k + 1)).sum)) with
  | some k => (k + 1) * 12
  | none => 5 * 12

/-- Recursive form of the discounted sum, with the 0-based position of the
head element as an explicit argument. -/
def npvFrom : List ℚ → ℚ → ℕ → ℚ
  | [], _, _ => 0
  | cf :: rest, r, k => cf / (1 + r) ^ (k + 1) + npvFrom rest r (k + 1)

/-- Error values for the invalid inputs named by the spec. -/
inductive ProjectError where
  | invalidDiscountRate
  | invalidHorizon
deriving DecidableEq, Repr

/-- Modelled from the spec: the payback scan of section 4.1 generalized to
an arbitrary horizon, with horizon_years * 12 as the fallthrough value. -/
def paybackGenAux (horizon_years : ℕ) : List ℚ → ℚ → ℕ → ℕ
  | [], _, _ => horizon_years * 12
  | cf :: rest, cumulative, year =>
    if 0 ≤ cumulative + cf then (year + 1) * 12
    else paybackGenAux horizon_years rest (cumulative + cf) (year + 1)

/-- Modelled from the spec: the parametrized project operation of section
4.1, with validation of discount_rate and horizon_years, is absent from the
source, which fixes the rate at 0.10 and the horizon at 5 years with no
checks; this definition follows the algorithm of the spec. -/
def project (costs : List Investment) (bens : List Benefit) (rate : ℚ)
    (horizon_years : ℕ) : Except ProjectError FinancialProjection :=
  if rate ≤ -1 then Except.error ProjectError.invalidDiscountRate
  else if horizon_years < 1 then Except.error ProjectError.invalidHorizon
  else
    let ac : ℕ → ℚ := fun i => (costs.map (fun c => costForSlot c i)).sum
    let ab : ℕ → ℚ := fun i =>
      (bens.map (fun b =>
        benefitValueForSlot b i * b.confidence_level * b.realization_probability)).sum
    let cashflow := (List.range horizon_years).map (fun i => ab i - ac i)
    Except.ok
      { total_investment := ((List.range horizon_years).map ac).sum
        total_benefits := ((List.range horizon_years).map ab).sum
        net_present_value := (cashflow.enum.map
          (fun p => p.2 / (1 + rate) ^ (p.1 + 1))).sum
        roi_percentage :=
          if ((List.range horizon_years).map ac).sum = 0 then 0
          else ((((List.range horizon_years).map ab).sum -
              ((List.range horizon_years).map ac).sum) /
            ((List.range horizon_years).map ac).sum) * 100
        payback_period_months := paybackGenAux horizon_years cashflow 0 0
        yearly_cashflow := cashflow }

/-- A concrete investment whose total is negative, used to probe the sign
test in the ROI branch of the engine. -/
def negInv : Investment :=
  { category := .infrastructure
    description := "negative cost item"
    year_1_cost := -100
    year_2_cost := 0
    year_3_cost := 0
    ongoing_annual_cost := 0
    confidence_level := 0.85 }

/-- A concrete investment with a positive total, used to exercise the
formula branch of the ROI computation. -/
def posInv : Investment :=
  { category := .technology
    description := "positive cost item"
    year_1_cost := 100
    year_2_cost := 0
    year_3_cost := 0
    ongoing_annual_cost := 0
    confidence_level := 0.85 }

/-- A concrete benefit item matching the example of the spec, with a 100
year-1 value and a 50 year-2 value. -/
def wBen : Benefit :=
  { category := .revenue_growth
    description := "benefit with a 100 year-1 value"
    year_1_value := 100
    year_2_value := 50
    year_3_value := 7
    ongoing_annual_value := 3
    confidence_level := 0.75
    realization_probability := 0.80 }

lemma applyInvestment_apply (a : ℕ → ℚ) (inv : Investment) (i : ℕ) (h : i < 5) :
    applyInvestment a inv i = a i + costForSlot inv i := by
  interval_cases i <;> simp [applyInvestment, costForSlot, Function.update]

lemma foldl_applyInvestment (invs : List Investment) :
    ∀ (a : ℕ → ℚ) (i : ℕ), i < 5 →
      invs.foldl applyInvestment a i = a i + (invs.map (fun inv => costForSlot inv i)).sum := by
  induction invs with
  | nil => intro a i _; simp
  | cons inv rest ih =>
    intro a i h
    simp only [List.foldl_cons, List.map_cons, List.sum_cons]
    rw [ih _ i h, applyInvestment_apply a inv i h]
    ring

lemma annual_costs_eq (invs : List Investment) (i : ℕ) (h : i < 5) :
    annual_costs invs i = (invs.map (fun inv => costForSlot inv i)).sum := by
  have := foldl_applyInvestment invs (fun _ => 0) i h
  simpa [annual_costs] using this

lemma applyBenefit_apply (a : ℕ → ℚ) (ben : Benefit) (i : ℕ) (h : i < 5) :
    applyBenefit a ben i =
      a i + benefitValueForSlot ben i * ben.confidence_level * ben.realization_probability := by
  interval_cases i <;> simp [applyBenefit, benefitValueForSlot, Function.update]

lemma foldl_applyBenefit (bens : List Benefit) :
    ∀ (a : ℕ → ℚ) (i : ℕ), i < 5 →
      bens.foldl applyBenefit a i =
        a i + (bens.map (fun b =>
          benefitValueForSlot b i * b.confidence_level * b.realization_probability)).sum := by
  induction bens with
  | nil => intro a i _; simp
  | cons ben rest ih =>
    intro a i h
    simp only [List.foldl_cons, List.map_cons, List.sum_cons]
    rw [ih _ i h, applyBenefit_apply a ben i h]
    ring

lemma annual_benefits_eq (bens : List Benefit) (i : ℕ) (h : i < 5) :
    annual_benefits bens i =
      (bens.map (fun b =>
        benefitValueForSlot b i * b.confidence_level * b.realization_probability)).sum := by
  have := foldl_applyBenefit bens (fun _ => 0) i h
  simpa [annual_benefits] using this

lemma yearly_cashflow_length (invs : List Investment) (bens : List Benefit) :
    (yearly_cashflow invs bens).length = 5 := by
  simp [yearly_cashflow]

lemma cast_list_sum (l : List ℚ) :
    ((l.map (fun q : ℚ => (q : ℝ))).sum) = ((l.sum : ℚ) : ℝ) := by
  induction l with
  | nil => simp
  | cons a t ih =>
    simp only [List.map_cons, List.sum_cons, Rat.cast_add, ih]

lemma paybackAux_eq (cfs : List ℚ) : ∀ (c : ℚ) (y : ℕ),
    paybackAux cfs c y =
      match (List.range cfs.length).find?
          (fun k => decide (0 ≤ c + (cfs.take (k + 1)).sum)) with
      | some k => (y + k + 1) * 12
      | none => 60 := by
  induction cfs with
  | nil =>
    intro c y
    simp [paybackAux]
  | cons cf rest ih =>
    intro c y
    by_cases h : 0 ≤ c + cf
    · have hp : (fun k => decide (0 ≤ c + (((cf :: rest).take (k + 1)).sum))) 0 = true := by
        simp only [List.take_succ_cons, List.take_zero, List.sum_cons, List.sum_nil,
          add_zero, decide_eq_true_eq]
        exact h
      have hfind1 := @List.find?_cons_of_pos ℕ
        (fun k => decide (0 ≤ c + (((cf :: rest).take (k + 1)).sum))) 0
        (List.map Nat.succ (List.range rest.length)) hp
      rw [List.length_cons, List.range_succ_eq_map, hfind1]
      simp [paybackAux, h]
    · have hp : ¬ (fun k => decide (0 ≤ c + (((cf :: rest).take (k + 1)).sum))) 0 = true := by
        simp only [List.take_succ_cons, List.take_zero, List.sum_cons, List.sum_nil,
          add_zero, decide_eq_true_eq]
        exact h
      have hfind1 := @List.find?_cons_of_neg ℕ
        (fun k => decide (0 ≤ c + (((cf :: rest).take (k + 1)).sum))) 0
        (List.map Nat.succ (List.range rest.length)) hp
      rw [List.length_cons, List.range_succ_eq_map, hfind1, List.find?_map]
      have hcomp :
          ((fun k => decide (0 ≤ c + (((cf :: rest).take (k + 1)).sum))) ∘ Nat.succ) =
            (fun k => decide (0 ≤ (c + cf) + ((rest.take (k + 1)).sum))) := by
        funext k
        simp only [Function.comp_apply, Nat.succ_eq_add_one, List.take_succ_cons,
          List.sum_cons]
        exact decide_eq_decide.mpr (by constructor <;> intro hh <;> linarith)
      rw [hcomp]
      have hstep : paybackAux (cf :: rest) c y = paybackAux rest (c + cf) (y + 1) := by
        simp [paybackAux, h]
      rw [hstep, ih (c + cf) (y + 1)]
      cases hfind : (List.range rest.length).find?
          (fun k => decide (0 ≤ c + cf + (rest.take (k + 1)).sum)) with
      | none => simp [hfind]
      | some k => simp [hfind, Nat.succ_eq_add_one]; ring

lemma payback_months_eq_specPayback (cfs : List ℚ) :
    payback_months cfs = specPayback cfs := by
  rw [payback_months, paybackAux_eq, specPayback]
  have hcong : (fun k => decide (0 ≤ (0 : ℚ) + (cfs.take (k + 1)).sum)) =
      (fun k => decide (0 ≤ (cfs.take (k + 1)).sum)) := by
    funext k
    exact decide_eq_decide.mpr (by constructor <;> intro hh <;> linarith)
  rw [hcong]
  cases hfind : (List.range cfs.length).find?
      (fun k => decide (0 ≤ (cfs.take (k + 1)).sum)) with
  | none => simp [hfind]
  | some k => simp [hfind]

lemma payback_months_mem (cfs : List ℚ) (h : cfs.length = 5) :
    payback_months cfs ∈ ([12, 24, 36, 48, 60] : List ℕ) := by
  rw [payback_months, paybackAux_eq, h]
  cases hfind : (List.range 5).find?
      (fun k => decide (0 ≤ (0 : ℚ) + (cfs.take (k + 1)).sum)) with
  | none => simp [hfind]
  | some k =>
    have hk5 : k < 5 := List.mem_range.mp (List.mem_of_find?_eq_some hfind)
    interval_cases k <;> simp [hfind]

lemma paybackAux_pos (cfs : List ℚ) : ∀ (c : ℚ) (y : ℕ), 0 < paybackAux cfs c y := by
  induction cfs with
  | nil => intro c y; simp [paybackAux]
  | cons cf rest ih =>
    intro c y
    by_cases h : 0 ≤ c + cf <;> simp [paybackAux, h, ih]

lemma enumFrom_npv (cfs : List ℚ) (r : ℚ) : ∀ k : ℕ,
    ((List.enumFrom k cfs).map (fun p => p.2 / (1 + r) ^ (p.1 + 1))).sum =
      npvFrom cfs r k := by
  induction cfs with
  | nil => intro k; simp [npvFrom]
  | cons cf rest ih =>
    intro k
    simp [List.enumFrom_cons, npvFrom, ih]

lemma npvAtRate_eq_from (cfs : List ℚ) (r : ℚ) : npvAtRate cfs r = npvFrom cfs r 0 :=
  enumFrom_npv cfs r 0

lemma npvFrom_anti (r1 r2 : ℚ) (h1 : -1 < r1) (h12 : r1 ≤ r2) :
    ∀ (cfs : List ℚ), (∀ x ∈ cfs, 0 ≤ x) →
      ∀ k, npvFrom cfs r2 k ≤ npvFrom cfs r1 k := by
  intro cfs
  induction cfs with
  | nil => intro _ k; simp [npvFrom]
  | cons cf rest ih =>
    intro hall k
    have hcf : 0 ≤ cf := hall cf (by simp)
    have hrest : ∀ x ∈ rest, 0 ≤ x := fun x hx => hall x (by simp [hx])
    have hterm : cf / (1 + r2) ^ (k + 1) ≤ cf / (1 + r1) ^ (k + 1) := by
      apply div_le_div_of_nonneg_left hcf (pow_pos (by linarith) _)
      exact pow_le_pow_left₀ (by linarith) (by linarith) _
    simpa [npvFrom] using add_le_add hterm (ih hrest (k + 1))

lemma npvFrom_strict_anti (r1 r2 : ℚ) (h1 : -1 < r1) (h12 : r1 < r2) :
    ∀ (cfs : List ℚ), (∀ x ∈ cfs, 0 ≤ x) → (∃ x ∈ cfs, 0 < x) →
      ∀ k, npvFrom cfs r2 k < npvFrom cfs r1 k := by
  intro cfs
  induction cfs with
  | nil =>
    intro _ hex k
    simp at hex
  | cons cf rest ih =>
    intro hall hex k
    have hcf : 0 ≤ cf := hall cf (by simp)
    have hrest : ∀ x ∈ rest, 0 ≤ x := fun x hx => hall x (by simp [hx])
    rcases hex with ⟨x, hx, hxpos⟩
    rcases List.mem_cons.mp hx with rfl | hxrest
    · have hterm : x / (1 + r2) ^ (k + 1) < x / (1 + r1) ^ (k + 1) := by
        apply div_lt_div_of_pos_left hxpos (pow_pos (by linarith) _)
        exact pow_lt_pow_left₀ (by linarith) (by linarith) (Nat.succ_ne_zero k)
      have htail := npvFrom_anti r1 r2 h1 (le_of_lt h12) rest hrest (k + 1)
      simpa [npvFrom] using add_lt_add_of_lt_of_le hterm htail
    · have hterm : cf / (1 + r2) ^ (k + 1) ≤ cf / (1 + r1) ^ (k + 1) := by
        apply div_le_div_of_nonneg_left hcf (pow_pos (by linarith) _)
        exact pow_le_pow_left₀ (by linarith) (by linarith) _
      have htail := ih hrest ⟨x, hxrest, hxpos⟩ (k + 1)
      simpa [npvFrom] using add_lt_add_of_le_of_lt hterm htail

/-- Claim C1: each cost item contributes its year-1, year-2 and year-3
figures to years 1 to 3 and its ongoing annual cost to years 4 and 5, with no
discount factor on costs; each benefit item contributes its value for the
year times its confidence level times its realization probability to every
year, using the ongoing annual value for years 4 and 5; and the yearly cash
flow is the aggregate benefit minus the aggregate cost of that year. -/
theorem claim_C1 (invs : List Investment) (bens : List Benefit) :
    (∀ i : Fin 5,
      annual_costs invs i.val = (invs.map (fun inv => costForSlot inv i.val)).sum ∧
      annual_benefits bens i.val =
        (bens.map (fun b =>
          benefitValueForSlot b i.val * b.confidence_level * b.realization_probability)).sum) ∧
    (calculate_financial_projection invs bens).yearly_cashflow =
      (List.range 5).map (fun i => annual_benefits bens i - annual_costs invs i) := by
  constructor
  · intro i
    exact ⟨annual_costs_eq invs i.val i.isLt, annual_benefits_eq bens i.val i.isLt⟩
  · rfl

/-- Claim C2: the net present value of the projection is the sum over the
0-based year indices i = 0..4 of yearly_cashflow[i] divided by
(1 + rate) ^ (i + 1), where the engine discount rate is 0.10, so the flow of
the first year is discounted one full period. -/
theorem claim_C2 (invs : List Investment) (bens : List Benefit) :
    (calculate_financial_projection invs bens).net_present_value =
      (Finset.range 5).sum (fun i =>
        (calculate_financial_projection invs bens).yearly_cashflow.getD i 0 /
          (1 + discount_rate) ^ (i + 1)) ∧
    discount_rate = 1 / 10 := by
  refine ⟨?_, by norm_num [discount_rate]⟩
  have h5 : List.range 5 = [0, 1, 2, 3, 4] := rfl
  simp [calculate_financial_projection, net_present_value, yearly_cashflow, h5,
    List.enum, List.enumFrom, Finset.sum_range_succ]
  ring

/-- Claim C3 counterexample: a single cost item of -100 makes the total
cost -100, which is nonzero, yet the engine returns an ROI of 0 rather than
the value -100 of the formula, because the source tests total_investment > 0
and not total_investment different from 0. -/
theorem claim_C3_counterexample :
    total_investment [negInv] ≠ 0 ∧
    (calculate_financial_projection [negInv] []).roi_percentage = 0 ∧
    ((total_benefits [] - total_investment [negInv]) / total_investment [negInv]) * 100 =
      -100 ∧
    (0 : ℚ) ≠ -100 := by
  refine ⟨?_, ?_, ?_, by norm_num⟩ <;>
    norm_num [calculate_financial_projection, roi_percentage, total_investment,
      total_benefits, annual_costs, annual_benefits, applyInvestment, Function.update,
      negInv, List.range_succ]

/-- Claim C3 as amended: the ROI percentage of the projection equals
(total_benefit - total_cost) / total_cost * 100 whenever the total cost is
strictly positive, and equals 0 whenever the total cost is not positive (in
particular when it is 0). -/
theorem claim_C3 (invs : List Investment) (bens : List Benefit) :
    (0 < total_investment invs →
      (calculate_financial_projection invs bens).roi_percentage =
        ((total_benefits bens - total_investment invs) / total_investment invs) * 100) ∧
    (total_investment invs ≤ 0 →
      (calculate_financial_projection invs bens).roi_percentage = 0) := by
  constructor
  · intro h
    simp [calculate_financial_projection, roi_percentage, h]
  · intro h
    simp [calculate_financial_projection, roi_percentage, not_lt.mpr h]

/-- Witness for claim C3: both branches evaluated on concrete inputs, the
positive branch on a 100-cost item and the non-positive branch on the
negative item. -/
theorem claim_C3_witness :
    (calculate_financial_projection [posInv] []).roi_percentage =
      ((total_benefits [] - total_investment [posInv]) / total_investment [posInv]) * 100 ∧
    (calculate_financial_projection [negInv] []).roi_percentage = 0 := by
  constructor
  · exact (claim_C3 [posInv] []).1 (by
      norm_num [total_investment, annual_costs, applyInvestment, Function.update,
        posInv, List.range_succ])
  · exact (claim_C3 [negInv] []).2 (by
      norm_num [total_investment, annual_costs, applyInvestment, Function.update,
        negInv, List.range_succ])

/-- Claim C4 counterexample: on the cash-flow series [-100, 40, 40, 40, 0]
the cumulative totals are -100, -60, -20, 20, 0, so the first non-negative
cumulative total is reached at year index 3 and the scan of the source
returns 48 months, not the 36 months stated by the claim. -/
theorem claim_C4_counterexample :
    payback_months [(-100 : ℚ), 40, 40, 40, 0] = 48 ∧ (48 : ℕ) ≠ 36 := by
  refine ⟨?_, by norm_num⟩
  norm_num [payback_months, paybackAux]

/-- Claim C4 as amended: the payback period of the projection is
(year_index + 1) * 12 for the first 0-based year index at which the running
cumulative cash flow is non-negative, and 5 * 12 = 60 when no year within
the horizon reaches a non-negative total; on the series
[-100, 40, 40, 40, 0] this yields 48 months, since the cumulative totals
-100, -60, -20 stay negative through year index 2 and reach +20 at year
index 3. -/
theorem claim_C4 :
    (∀ (invs : List Investment) (bens : List Benefit),
      (calculate_financial_projection invs bens).payback_period_months =
        specPayback (yearly_cashflow invs bens)) ∧
    payback_months [(-100 : ℚ), 40, 40, 40, 0] = 48 := by
  refine ⟨fun invs bens => payback_months_eq_specPayback _, ?_⟩
  norm_num [payback_months, paybackAux]

/-- Claim C5: the irr of the projection is 0 when the total cost is not
positive (this test comes first), -1 when the total cost is positive but the
sum of the cash flows is not positive, and otherwise the fifth root of the
ratio of total cash flow to total cost, minus one, clamped to the interval
from -1 to 1. -/
theorem claim_C5 (invs : List Investment) (bens : List Benefit) :
    (total_investment invs ≤ 0 → projection_irr invs bens = 0) ∧
    (0 < total_investment invs → (yearly_cashflow invs bens).sum ≤ 0 →
      projection_irr invs bens = -1) ∧
    (0 < total_investment invs → 0 < (yearly_cashflow invs bens).sum →
      projection_irr invs bens =
        min 1 (max (-1)
          (((((yearly_cashflow invs bens).sum : ℚ) : ℝ) /
              ((total_investment invs : ℚ) : ℝ)) ^ ((1 : ℝ) / 5) - 1))) := by
  have hsum : (((yearly_cashflow invs bens).map (fun q : ℚ => (q : ℝ))).sum)
      = (((yearly_cashflow invs bens).sum : ℚ) : ℝ) := cast_list_sum _
  have hlen : ((((yearly_cashflow invs bens).map (fun q : ℚ => (q : ℝ))).length) : ℝ) = 5 := by
    rw [List.length_map, yearly_cashflow_length]
    norm_num
  refine ⟨?_, ?_, ?_⟩
  · intro h
    have h0 : ((total_investment invs : ℚ) : ℝ) ≤ 0 := by exact_mod_cast h
    simp only [projection_irr, calculate_irr, if_pos h0]
  · intro h hs
    have h0 : ¬ ((total_investment invs : ℚ) : ℝ) ≤ 0 := by
      push_neg
      exact_mod_cast h
    have hs0 : (((yearly_cashflow invs bens).map (fun q : ℚ => (q : ℝ))).sum) ≤ 0 := by
      rw [hsum]
      exact_mod_cast hs
    simp only [projection_irr, calculate_irr, if_neg h0, if_pos hs0]
  · intro h hs
    have h0 : ¬ ((total_investment invs : ℚ) : ℝ) ≤ 0 := by
      push_neg
      exact_mod_cast h
    have hs0 : ¬ (((yearly_cashflow invs bens).map (fun q : ℚ => (q : ℝ))).sum) ≤ 0 := by
      rw [hsum]
      push_neg
      exact_mod_cast hs
    simp only [projection_irr, calculate_irr, if_neg h0, if_neg hs0]
    rw [hsum, hlen]

/-- Witness for claim C5: with both item lists empty the total cost is 0,
the first branch applies and the irr is 0. -/
theorem claim_C5_witness : projection_irr [] [] = 0 :=
  (claim_C5 [] []).1 (by
    norm_num [total_investment, annual_costs, List.range_succ])

/-- Claim C6 counterexample: the series [-100, 1, 0, 0, 0] contains the
positive-valued year 1, both rates 0 and 1 exceed -1, and raising the rate
from 0 to 1 raises the NPV from -99 to -49.75, so the NPV is not strictly
decreasing in the rate for every series with a positive-valued year. -/
theorem claim_C6_counterexample :
    ((1 : ℚ) ∈ ([(-100 : ℚ), 1, 0, 0, 0] : List ℚ) ∧ (0 : ℚ) < 1) ∧
    (-1 : ℚ) < 0 ∧ (0 : ℚ) < 1 ∧
    npvAtRate [(-100 : ℚ), 1, 0, 0, 0] 0 < npvAtRate [(-100 : ℚ), 1, 0, 0, 0] 1 := by
  refine ⟨⟨by simp, by norm_num⟩, by norm_num, by norm_num, ?_⟩
  norm_num [npvAtRate, List.enum, List.enumFrom]

/-- Claim C6 as amended: for a cash-flow series all of whose entries are
non-negative and at least one of which is positive, the NPV function of the
engine is strictly decreasing in the discount rate over rates above -1. -/
theorem claim_C6 (cfs : List ℚ) (r1 r2 : ℚ) (hall : ∀ x ∈ cfs, 0 ≤ x)
    (hex : ∃ x ∈ cfs, 0 < x) (h1 : -1 < r1) (h12 : r1 < r2) :
    npvAtRate cfs r2 < npvAtRate cfs r1 := by
  rw [npvAtRate_eq_from, npvAtRate_eq_from]
  exact npvFrom_strict_anti r1 r2 h1 h12 cfs hall hex 0

/-- Witness for claim C6: the series [1, 0, 0, 0, 0] with rates 0 and 1. -/
theorem claim_C6_witness :
    npvAtRate [(1 : ℚ), 0, 0, 0, 0] 1 < npvAtRate [(1 : ℚ), 0, 0, 0, 0] 0 :=
  claim_C6 [(1 : ℚ), 0, 0, 0, 0] 0 1
    (by intro x hx; simp at hx; rcases hx with rfl | rfl <;> norm_num)
    ⟨1, by simp, by norm_num⟩ (by norm_num) (by norm_num)

/-- Claim C7: a delay of at most six months halves the year-1 value, adds
the removed half to the year-2 value and keeps every other field; a delay of
more than six months zeroes year 1, makes year 2 equal to 70 percent of the
old year-1 value, makes year 3 equal to the old year-2 value plus 30 percent
of the old year-1 value, and multiplies both the confidence level and the
realization probability by 0.9. -/
theorem claim_C7 (b : Benefit) (d : ℤ) :
    (d ≤ 6 → delay_benefit b d =
      { category := b.category
        description := b.description
        year_1_value := b.year_1_value / 2
        year_2_value := b.year_2_value + b.year_1_value / 2
        year_3_value := b.year_3_value
        ongoing_annual_value := b.ongoing_annual_value
        confidence_level := b.confidence_level
        realization_probability := b.realization_probability }) ∧
    (6 < d → delay_benefit b d =
      { category := b.category
        description := b.description
        year_1_value := 0
        year_2_value := b.year_1_value * (7 / 10)
        year_3_value := b.year_2_value + b.year_1_value * (3 / 10)
        ongoing_annual_value := b.ongoing_annual_value
        confidence_level := b.confidence_level * (9 / 10)
        realization_probability := b.realization_probability * (9 / 10) }) := by
  constructor
  · intro h
    simp only [delay_benefit, if_pos h, Benefit.mk.injEq]
    norm_num
    ring
  · intro h
    simp only [delay_benefit, if_neg (not_le.mpr h), Benefit.mk.injEq]
    norm_num

/-- Witness for claim C7: on the item with year-1 value 100 and year-2
value 50, a 3-month delay yields the values 50 and 100 and a 9-month delay
yields 0, 70 and the old year-2 value plus 30. -/
theorem claim_C7_witness :
    ((delay_benefit wBen 3).year_1_value = 50 ∧ (delay_benefit wBen 3).year_2_value = 100) ∧
    ((delay_benefit wBen 9).year_1_value = 0 ∧ (delay_benefit wBen 9).year_2_value = 70 ∧
      (delay_benefit wBen 9).year_3_value = wBen.year_2_value + 30) := by
  have h3 := (claim_C7 wBen 3).1 (by norm_num)
  have h9 := (claim_C7 wBen 9).2 (by norm_num)
  rw [h3, h9]
  norm_num [wBen]

/-- Claim C8: the parametrized project operation, modelled from the spec,
rejects a discount rate of -1 or below and a horizon below one year with an
InvalidArgument-style error before any computation, and on every valid
input returns a complete projection, never a partial result. -/
theorem claim_C8 (costs : List Investment) (bens : List Benefit) (rate : ℚ)
    (horizon_years : ℕ) :
    (rate ≤ -1 → project costs bens rate horizon_years =
      Except.error ProjectError.invalidDiscountRate) ∧
    (-1 < rate → horizon_years < 1 → project costs bens rate horizon_years =
      Except.error ProjectError.invalidHorizon) ∧
    (-1 < rate → 1 ≤ horizon_years →
      ∃ p : FinancialProjection, project costs bens rate horizon_years = Except.ok p) := by
  refine ⟨fun h => by simp [project, h],
    fun h hh => by simp [project, not_le.mpr h, hh],
    fun h hh => ?_⟩
  simp only [project, if_neg (not_le.mpr h), if_neg (Nat.not_lt.mpr hh)]
  exact ⟨_, rfl⟩

/-- Witness for claim C8: rate -2 is rejected, horizon 0 is rejected under
the valid rate 0, and the valid pair of rate 0.10 and horizon 5 produces a
complete projection. -/
theorem claim_C8_witness :
    project [] [] (-2) 5 = Except.error ProjectError.invalidDiscountRate ∧
    project [] [] 0 0 = Except.error ProjectError.invalidHorizon ∧
    ∃ p : FinancialProjection, project [] [] (1 / 10) 5 = Except.ok p :=
  ⟨(claim_C8 [] [] (-2) 5).1 (by norm_num),
   (claim_C8 [] [] 0 0).2.1 (by norm_num) (by norm_num),
   (claim_C8 [] [] (1 / 10) 5).2.2 (by norm_num) (by norm_num)⟩

/-- Claim C9: the payback period of the projection is always one of 12, 24,
36, 48 or 60 months, hence positive and a multiple of 12; with both input
lists empty the cumulative cash flow after year 1 is 0, which counts as
non-negative, so the payback period is 12 months. -/
theorem claim_C9 (invs : List Investment) (bens : List Benefit) :
    (calculate_financial_projection invs bens).payback_period_months ∈
      ([12, 24, 36, 48, 60] : List ℕ) ∧
    0 < (calculate_financial_projection invs bens).payback_period_months ∧
    (calculate_financial_projection [] []).payback_period_months = 12 := by
  refine ⟨payback_months_mem (yearly_cashflow invs bens)
    (yearly_cashflow_length invs bens), paybackAux_pos _ 0 0, ?_⟩
  norm_num [calculate_financial_projection, payback_months, paybackAux,
    yearly_cashflow, annual_costs, annual_benefits, List.range_succ]

/-- Claim C10: a delay of zero months falls into the six-month-or-less
branch and still halves the year-1 value, so on any item with a nonzero
year-1 value the zero-delay perturbation of the sensitivity sweep is not the
identity and does not reproduce the base item. -/
theorem claim_C10 (b : Benefit) :
    (delay_benefit b 0).year_1_value = b.year_1_value * 0.5 ∧
    (b.year_1_value ≠ 0 → delay_benefit b 0 ≠ b) := by
  constructor
  · norm_num [delay_benefit]
  · intro hne heq
    have h1 := congrArg Benefit.year_1_value heq
    norm_num [delay_benefit] at h1
    exact hne (by linarith)

/-- Witness for claim C10: the item with year-1 value 100 is changed by a
zero-month delay. -/
theorem claim_C10_witness : delay_benefit wBen 0 ≠ wBen :=
  (claim_C10 wBen).2 (by norm_num [wBen])

end BusinessCaseGenerator
